import Mathlib

/-!
Verification of the YouTube transcript gateway service (src/app.py) against
its natural-language specification.

The development shallowly embeds the Flask application: the transcript
request handler `get_transcript` (src/app.py lines 49-88) becomes a pure
Lean function parameterised by the two external capabilities (the video-ID
resolver and the transcript source), and the rate-limiting gate installed
by the `Limiter` configuration (src/app.py lines 38-50) becomes an explicit
step function on per-client counters.  The three output formatters live in
the external `youtube_transcript_api` library, outside src/, and are
modelled from the specification's description of them.
-/

namespace YTGateway

/-- A transcript segment: one timed unit of text.  Times are embedded as
rationals standing for the Python floats (every value the claims touch is
exactly representable). -/
structure Segment where
  text : String
  start : ℚ
  duration : ℚ
deriving DecidableEq, Repr

/-- Result of the external video-ID resolver (`YouTube(url).video_id`,
src/app.py lines 62-63): a canonical identifier, or any exception carrying
a message. -/
inductive ResolveResult where
  | ok (videoId : String)
  | err (msg : String)
deriving DecidableEq, Repr

/-- Result of the external transcript source
(`YouTubeTranscriptApi.get_transcript`, src/app.py line 69): an ordered
segment list, the distinguishable `TranscriptsDisabled`/`NoTranscriptFound`
condition, or any other exception carrying a message. -/
inductive FetchResult where
  | ok (transcript : List Segment)
  | disabledOrNotFound
  | err (msg : String)
deriving DecidableEq, Repr

/-- An HTTP response as the handler produces it: a 200 with body and
content type, an `abort(status, description)`, or the JSON body emitted by
the 429 error handler (src/app.py lines 178-180). -/
inductive Response where
  | ok (body : String) (contentType : String)
  | abortResp (status : Nat) (description : String)
  | rateLimited (error : String) (description : String)
deriving DecidableEq, Repr

/-- HTTP status of a response. -/
def Response.status : Response → Nat
  | .ok _ _ => 200
  | .abortResp s _ => s
  | .rateLimited _ _ => 429

/-- Content-Type header of a response, when one is set explicitly. -/
def Response.contentTypeOf : Response → Option String
  | .ok _ ct => some ct
  | _ => none

/-- Error description of a response, when it is an abort. -/
def Response.descriptionOf : Response → Option String
  | .abortResp _ d => some d
  | .rateLimited _ d => some d
  | _ => none

/-- Lower-case an ASCII letter, leaving every other character unchanged. -/
def lowerChar (c : Char) : Char :=
  if 65 ≤ c.toNat ∧ c.toNat ≤ 90 then Char.ofNat (c.toNat + 32) else c

/-- Python's `str.lower()` as the handler uses it (src/app.py line 53),
embedded character-wise; the format names the handler compares against are
ASCII, for which this agrees with Python. -/
def py_lower (s : String) : String :=
  ⟨s.data.map lowerChar⟩

/-- The query parameters of a transcript request:
`request.args.get('url')` and `request.args.get('output', 'json')`
(src/app.py lines 52-53).  `none` is an absent parameter. -/
structure Args where
  url : Option String
  output : Option String
deriving DecidableEq, Repr

/-- Everything a call of the handler produces: the response, whether the
external resolver and the transcript source were invoked, and the log
lines written. -/
structure HandlerOut where
  resp : Response
  resolverCalled : Bool
  fetchCalled : Bool
  logs : List String
deriving DecidableEq, Repr

/-- Modelled from the spec: the JSON serializer (external
`JSONFormatter().format_transcript`) emits the segment list as an array of
`{text, start, duration}` objects in order; the exact rendering of string
escapes and numbers is abstracted by `toString`. -/
def jsonFormat (segs : List Segment) : String :=
  "[" ++ String.intercalate ", "
    (segs.map fun s =>
      "\x7b\"text\": \"" ++ s.text ++ "\", \"start\": " ++ toString s.start
        ++ ", \"duration\": " ++ toString s.duration ++ "\x7d") ++ "]"

/-- Modelled from the spec: the plain-text serializer (external
`TextFormatter().format_transcript`) concatenates each segment's text, one
per line, discarding timing. -/
def textFormat (segs : List Segment) : String :=
  String.intercalate "\n" (segs.map Segment.text)

/-- Milliseconds in a timestamp: mid-second boundaries round down to the
millisecond (spec section 4.3). -/
def msOfSeconds (t : ℚ) : Nat :=
  (⌊t * 1000⌋).toNat

/-- Zero-pad a number to two digits. -/
def pad2 (n : Nat) : String :=
  if n < 10 then "0" ++ toString n else toString n

/-- Zero-pad a number to three digits. -/
def pad3 (n : Nat) : String :=
  if n < 10 then "00" ++ toString n
  else if n < 100 then "0" ++ toString n
  else toString n

/-- Modelled from the spec: an SRT timestamp `HH:MM:SS,mmm`, zero-padded
to fixed width, rounding down to the millisecond. -/
def srtTimestamp (t : ℚ) : String :=
  let ms := msOfSeconds t
  pad2 (ms / 3600000) ++ ":" ++ pad2 (ms / 60000 % 60) ++ ":"
    ++ pad2 (ms / 1000 % 60) ++ "," ++ pad3 (ms % 1000)

/-- One SRT entry: the index, the timestamp range `start --> start+duration`,
the text, and a blank separator line. -/
def srtEntry (idx : Nat) (s : Segment) : String :=
  toString idx ++ "\n" ++ srtTimestamp s.start ++ " --> "
    ++ srtTimestamp (s.start + s.duration) ++ "\n" ++ s.text ++ "\n\n"

/-- Modelled from the spec: the SRT serializer (external
`SRTFormatter().format_transcript`) numbers segments sequentially starting
at 1 and emits one entry per segment. -/
def srtFormat (segs : List Segment) : String :=
  String.join ((segs.enumFrom 1).map fun p => srtEntry p.1 p.2)

/-- The sequence numbers `srtFormat` assigns to the entries of a segment
list, in order of emission. -/
def srtIndices (segs : List Segment) : List Nat :=
  (segs.enumFrom 1).map Prod.fst

/-- The transcript request handler, src/app.py lines 49-88, parameterised
by the two external capabilities.  `resolve` stands for
`YouTube(url).video_id` and `fetch` for
`YouTubeTranscriptApi.get_transcript`. -/
def get_transcript (resolve : String → ResolveResult)
    (fetch : String → FetchResult) (args : Args) : HandlerOut :=
  -- output_type = request.args.get('output', 'json').lower()
  let output_type := py_lower (args.output.getD "json")
  match args.url with
  | none =>
    -- if not youtube_url: abort(400, ...)
    ⟨.abortResp 400 "Missing YouTube URL", false, false, []⟩
  | some u =>
    if u = "" then
      ⟨.abortResp 400 "Missing YouTube URL", false, false, []⟩
    -- if output_type not in ['json', 'srt', 'text']: abort(400, ...)
    else if output_type ∉ (["json", "srt", "text"] : List String) then
      ⟨.abortResp 400 "Invalid output type. Use 'json', 'srt', or 'text'.",
        false, false, []⟩
    else
      match resolve u with
      | .err e =>
        ⟨.abortResp 400 "Invalid YouTube URL", true, false,
          ["Error parsing YouTube URL: " ++ e]⟩
      | .ok video_id =>
        match fetch video_id with
        | .ok transcript =>
          if output_type = "json" then
            ⟨.ok (jsonFormat transcript) "application/json", true, true,
              ["Successfully fetched transcript for video ID: " ++ video_id]⟩
          else if output_type = "srt" then
            ⟨.ok (srtFormat transcript) "text/plain", true, true,
              ["Successfully fetched transcript for video ID: " ++ video_id]⟩
          else
            ⟨.ok (textFormat transcript) "text/plain", true, true,
              ["Successfully fetched transcript for video ID: " ++ video_id]⟩
        | .disabledOrNotFound =>
          ⟨.abortResp 404 "Transcript not available for this video", true, true,
            ["Transcript not available for video ID: " ++ video_id]⟩
        | .err e =>
          ⟨.abortResp 500 ("An error occurred: " ++ e), true, true,
            ["An error occurred while fetching transcript for video ID "
              ++ video_id ++ ": " ++ e]⟩

/-- The routes of the application that the claims mention (src/app.py
lines 45, 49, 182). -/
inductive Endpoint where
  | hello
  | transcript
  | privacy
deriving DecidableEq, Repr

/-- The app-wide default limit, `default_limits=["10 per minute"]`
(src/app.py line 41): it applies to every route that carries neither an
explicit limit nor an exemption, and no route in src/app.py is exempted. -/
def defaultLimitPerMinute : Nat := 10

/-- The explicit per-route limit on the transcript endpoint,
`@limiter.limit("10 per minute")` (src/app.py line 50). -/
def transcriptLimitPerMinute : Nat := 10

/-- The limit the limiter enforces on each route: the explicit route limit
on `/api/transcript`, the default limit everywhere else. -/
def routeLimitPerMinute : Endpoint → Nat
  | .transcript => transcriptLimitPerMinute
  | _ => defaultLimitPerMinute

/-- Modelled from the spec: the external flask-limiter package holds the
RateLimitState — requests seen per client address, per route, per fixed
minute window (`get_remote_address` keying with in-memory storage,
src/app.py lines 38-43); counters are mutated by every request regardless
of outcome. -/
def LimiterState : Type := String → Endpoint → Nat → Nat

/-- Fresh limiter storage: no requests seen. -/
def LimiterState.init : LimiterState := fun _ _ _ => 0

/-- Record one hit for a key. -/
def LimiterState.hit (st : LimiterState) (c : String) (e : Endpoint)
    (w : Nat) : LimiterState :=
  fun c2 e2 w2 => if c2 = c ∧ e2 = e ∧ w2 = w then st c e w + 1 else st c2 e2 w2

/-- A request as the application sees it: the client address the limiter
keys on, the minute window it arrives in, the route, and (for the
transcript route) the query parameters. -/
structure AppRequest where
  client : String
  window : Nat
  endpoint : Endpoint
  args : Args
deriving DecidableEq, Repr

/-- Everything one application step produces: the response, whether the
resolver and the transcript source were invoked, and the updated limiter
counters. -/
structure StepOut where
  resp : Response
  resolverCalled : Bool
  fetchCalled : Bool
  state : LimiterState

/-- Body returned by `hello_world` (src/app.py lines 45-47). -/
def helloBody : String := "\x7b\"message\": \"Hello, World!\"\x7d"

/-- The privacy-policy route returns a static HTML document (src/app.py
lines 182-227); only its status matters to the claims, so the literal is
abbreviated to its heading. -/
def privacyBody : String :=
  "<h1>Privacy Policy for YouTube Transcript API</h1>"

/-- One request through the application.  The gate itself lives in the
external flask-limiter package and is modelled from the spec: a
fixed-window count per client, route and window fires before the view
function, and a request over the limit is answered by
`ratelimit_handler` (src/app.py lines 178-180) with the limit string as
its description.  Only a request that passes the gate reaches the view
function of its route. -/
def appStep (resolve : String → ResolveResult) (fetch : String → FetchResult)
    (st : LimiterState) (r : AppRequest) : StepOut :=
  let hits := st r.client r.endpoint r.window + 1
  let st2 := st.hit r.client r.endpoint r.window
  if hits > routeLimitPerMinute r.endpoint then
    ⟨.rateLimited "Rate limit exceeded" "10 per minute", false, false, st2⟩
  else
    match r.endpoint with
    | .hello => ⟨.ok helloBody "application/json", false, false, st2⟩
    | .privacy => ⟨.ok privacyBody "text/html", false, false, st2⟩
    | .transcript =>
      let out := get_transcript resolve fetch r.args
      ⟨out.resp, out.resolverCalled, out.fetchCalled, st2⟩

/-- Run a sequence of requests from fresh limiter storage, collecting the
responses in order. -/
def appRun (resolve : String → ResolveResult) (fetch : String → FetchResult) :
    LimiterState → List AppRequest → List Response
  | _, [] => []
  | st, r :: rs =>
    let out := appStep resolve fetch st r
    out.resp :: appRun resolve fetch out.state rs

/-! Concrete instantiations used to exercise the model. -/

/-- A resolver stub that always resolves to a fixed identifier. -/
def stubResolve : String → ResolveResult := fun _ => .ok "dQw4w9WgXcQ"

/-- A transcript-source stub returning one fixed segment. -/
def stubFetch : String → FetchResult := fun _ => .ok [⟨"Hi", 0, 1.5⟩]

/-- The video URL used by the concrete examples. -/
def stubUrl : String := "https://youtu.be/dQw4w9WgXcQ"

/-- A hello request from a fixed client in window 0. -/
def helloReq : AppRequest := ⟨"203.0.113.7", 0, .hello, ⟨none, none⟩⟩

/-- A privacy-policy request from the same client and window. -/
def privacyReq : AppRequest := ⟨"203.0.113.7", 0, .privacy, ⟨none, none⟩⟩

/-- A transcript request from the same client and window. -/
def transcriptReq : AppRequest :=
  ⟨"203.0.113.7", 0, .transcript, ⟨some stubUrl, none⟩⟩

/-- Limiter storage in which every key has already seen ten requests. -/
def exhaustedState : LimiterState := fun _ _ _ => 10

/-! Theorems settling the claims. -/

/-- C1, counterexample to the claim as stated: when the transcript fetch
raises an unexpected exception with message `"boom"`, the response has
status 500 but its client-visible description is
`"An error occurred: " ++ "boom"` — it carries the underlying exception's
message text rather than only a generic message (src/app.py line 88). -/
theorem c1_counterexample :
    (get_transcript stubResolve (fun _ => .err "boom")
        ⟨some stubUrl, none⟩).resp.status = 500 ∧
    (get_transcript stubResolve (fun _ => .err "boom")
        ⟨some stubUrl, none⟩).resp.descriptionOf
      = some ("An error occurred: " ++ "boom") := by
  constructor <;> decide

/-- C1 (amended): when the transcript fetch raises an unexpected
exception, the response has status 500 and its client-visible description
is `"An error occurred: "` followed by the underlying exception's message;
the full detail is also logged server-side. -/
theorem c1_internal_error_detail (resolve : String → ResolveResult)
    (fetch : String → FetchResult) (u : String) (o : Option String)
    (vid msg : String) (hu : u ≠ "")
    (ho : py_lower (o.getD "json") ∈ (["json", "srt", "text"] : List String))
    (hres : resolve u = .ok vid) (hf : fetch vid = .err msg) :
    get_transcript resolve fetch ⟨some u, o⟩ =
      ⟨.abortResp 500 ("An error occurred: " ++ msg), true, true,
        ["An error occurred while fetching transcript for video ID "
          ++ vid ++ ": " ++ msg]⟩ := by
  simp [get_transcript, hu, ho, hres, hf]

/-- Witness for `c1_internal_error_detail` at concrete inputs. -/
theorem c1_internal_error_detail_witness :
    get_transcript stubResolve (fun _ => .err "boom") ⟨some stubUrl, none⟩ =
      ⟨.abortResp 500 ("An error occurred: " ++ "boom"), true, true,
        ["An error occurred while fetching transcript for video ID "
          ++ "dQw4w9WgXcQ" ++ ": " ++ "boom"]⟩ :=
  c1_internal_error_detail stubResolve (fun _ => .err "boom") stubUrl none
    "dQw4w9WgXcQ" "boom" (by decide) (by decide) rfl rfl

/-- C4: when both validation checks pass and the external resolver fails
— with any message whatsoever — the handler answers 400 with the single
fixed description `"Invalid YouTube URL"`, logs the original detail, and
never reaches the transcript source (src/app.py lines 61-66). -/
theorem c4_resolver_failure (resolve : String → ResolveResult)
    (fetch : String → FetchResult) (u : String) (o : Option String)
    (msg : String) (hu : u ≠ "")
    (ho : py_lower (o.getD "json") ∈ (["json", "srt", "text"] : List String))
    (hres : resolve u = .err msg) :
    get_transcript resolve fetch ⟨some u, o⟩ =
      ⟨.abortResp 400 "Invalid YouTube URL", true, false,
        ["Error parsing YouTube URL: " ++ msg]⟩ := by
  simp [get_transcript, hu, ho, hres]

/-- Witness for `c4_resolver_failure` at concrete inputs. -/
theorem c4_resolver_failure_witness :
    get_transcript (fun _ => .err "regex match failed") stubFetch
        ⟨some "https://example.com/nope", some "SRT"⟩ =
      ⟨.abortResp 400 "Invalid YouTube URL", true, false,
        ["Error parsing YouTube URL: " ++ "regex match failed"]⟩ :=
  c4_resolver_failure (fun _ => .err "regex match failed") stubFetch
    "https://example.com/nope" (some "SRT") "regex match failed"
    (by decide) (by decide) rfl

/-- C5: when validation passes, the URL resolves, and the transcript
source signals the distinguishable disabled-or-not-found condition, the
response is 404 with description
`"Transcript not available for this video"` (src/app.py lines 83-85). -/
theorem c5_transcript_not_found (resolve : String → ResolveResult)
    (fetch : String → FetchResult) (u : String) (o : Option String)
    (vid : String) (hu : u ≠ "")
    (ho : py_lower (o.getD "json") ∈ (["json", "srt", "text"] : List String))
    (hres : resolve u = .ok vid) (hf : fetch vid = .disabledOrNotFound) :
    get_transcript resolve fetch ⟨some u, o⟩ =
      ⟨.abortResp 404 "Transcript not available for this video", true, true,
        ["Transcript not available for video ID: " ++ vid]⟩ := by
  simp [get_transcript, hu, ho, hres, hf]

/-- Witness for `c5_transcript_not_found` at concrete inputs. -/
theorem c5_transcript_not_found_witness :
    get_transcript stubResolve (fun _ => .disabledOrNotFound)
        ⟨some stubUrl, none⟩ =
      ⟨.abortResp 404 "Transcript not available for this video", true, true,
        ["Transcript not available for video ID: " ++ "dQw4w9WgXcQ"]⟩ :=
  c5_transcript_not_found stubResolve (fun _ => .disabledOrNotFound) stubUrl
    none "dQw4w9WgXcQ" (by decide) (by decide) rfl rfl

/-- C6: a request whose `url` parameter is missing or empty is answered
with status 400, whatever the other parameters and whatever the external
capabilities would do (src/app.py lines 52-56). -/
theorem c6_missing_url (resolve : String → ResolveResult)
    (fetch : String → FetchResult) (args : Args)
    (h : args.url = none ∨ args.url = some "") :
    (get_transcript resolve fetch args).resp.status = 400 := by
  obtain ⟨u, o⟩ := args
  rcases h with h | h <;> simp only at h <;> subst h <;>
    simp [get_transcript, Response.status]

/-- Witness for `c6_missing_url` at concrete inputs. -/
theorem c6_missing_url_witness :
    (get_transcript stubResolve stubFetch ⟨none, some "srt"⟩).resp.status
      = 400 :=
  c6_missing_url stubResolve stubFetch ⟨none, some "srt"⟩ (Or.inl rfl)

/-- C7: the `output` parameter is matched case-insensitively against
`{json, srt, text}`: an absent parameter behaves exactly like `json`, two
spellings with the same lower-casing are handled identically, and any
value whose lower-casing falls outside the set is answered with status 400
(src/app.py lines 53-59). -/
theorem c7_output_validation :
    (∀ (resolve : String → ResolveResult) (fetch : String → FetchResult)
        (u : Option String),
      get_transcript resolve fetch ⟨u, none⟩
        = get_transcript resolve fetch ⟨u, some "json"⟩) ∧
    (∀ (resolve : String → ResolveResult) (fetch : String → FetchResult)
        (u : Option String) (s t : String), py_lower s = py_lower t →
      get_transcript resolve fetch ⟨u, some s⟩
        = get_transcript resolve fetch ⟨u, some t⟩) ∧
    (∀ (resolve : String → ResolveResult) (fetch : String → FetchResult)
        (args : Args) (s : String), args.output = some s →
      py_lower s ∉ (["json", "srt", "text"] : List String) →
      (get_transcript resolve fetch args).resp.status = 400) := by
  refine ⟨fun _ _ _ => rfl, fun resolve fetch u s t h => ?_,
    fun resolve fetch args s ho hmem => ?_⟩
  · unfold get_transcript
    simp only [Option.getD_some, h]
  · obtain ⟨u, o⟩ := args
    simp only at ho
    subst ho
    rcases u with _ | v
    · simp [get_transcript, Response.status]
    · by_cases hv : v = "" <;>
        simp [get_transcript, hv, hmem, Response.status]

/-- Witness for `c7_output_validation` at concrete inputs. -/
theorem c7_output_validation_witness :
    get_transcript stubResolve stubFetch ⟨some stubUrl, some "SRT"⟩
        = get_transcript stubResolve stubFetch ⟨some stubUrl, some "srt"⟩ ∧
    (get_transcript stubResolve stubFetch
        ⟨some stubUrl, some "xml"⟩).resp.status = 400 :=
  ⟨c7_output_validation.2.1 stubResolve stubFetch (some stubUrl) "SRT" "srt"
      (by decide),
    c7_output_validation.2.2 stubResolve stubFetch ⟨some stubUrl, some "xml"⟩
      "xml" rfl (by decide)⟩

/-- C8: when validation passes, the URL resolves, and the transcript
source succeeds, the response has status 200 and its Content-Type matches
the requested format: `application/json` for `json`, `text/plain` for
`srt` and `text` (src/app.py lines 71-82). -/
theorem c8_success_content_type (resolve : String → ResolveResult)
    (fetch : String → FetchResult) (u : String) (o : Option String)
    (vid : String) (segs : List Segment) (hu : u ≠ "")
    (ho : py_lower (o.getD "json") ∈ (["json", "srt", "text"] : List String))
    (hres : resolve u = .ok vid) (hf : fetch vid = .ok segs) :
    (get_transcript resolve fetch ⟨some u, o⟩).resp.status = 200 ∧
    (get_transcript resolve fetch ⟨some u, o⟩).resp.contentTypeOf =
      some (if py_lower (o.getD "json") = "json" then "application/json"
        else "text/plain") := by
  simp only [List.mem_cons, List.not_mem_nil, or_false] at ho
  rcases ho with h | h | h <;>
    simp [get_transcript, hu, hres, hf, h, Response.status,
      Response.contentTypeOf]

/-- Witness for `c8_success_content_type` at concrete inputs. -/
theorem c8_success_content_type_witness :
    (get_transcript stubResolve stubFetch
        ⟨some stubUrl, some "srt"⟩).resp.status = 200 ∧
    (get_transcript stubResolve stubFetch
        ⟨some stubUrl, some "srt"⟩).resp.contentTypeOf =
      some (if py_lower ((some "srt").getD "json") = "json"
        then "application/json" else "text/plain") :=
  c8_success_content_type stubResolve stubFetch stubUrl (some "srt")
    "dQw4w9WgXcQ" [⟨"Hi", 0, 1.5⟩] (by decide) (by decide) rfl rfl

/-- C9: the SRT serializer is a function of the segment sequence alone
(identical inputs give byte-identical output), its sequence numbers are
exactly 1, 2, 3, ... with no gaps, and on the single segment
`{text: "Hi", start: 0.0, duration: 1.5}` its output begins
`1\n00:00:00,000 --> 00:00:01,500\nHi\n\n`. -/
theorem c9_srt_formatter :
    (∀ s t : List Segment, s = t → srtFormat s = srtFormat t) ∧
    (∀ segs : List Segment, srtIndices segs = List.range' 1 segs.length) ∧
    (∃ rest, srtFormat [⟨"Hi", 0, 1.5⟩]
      = "1\n00:00:00,000 --> 00:00:01,500\nHi\n\n" ++ rest) := by
  refine ⟨fun s t h => by rw [h],
    fun segs => by simp [srtIndices, List.enumFrom_map_fst], ⟨"", ?_⟩⟩
  have m0 : msOfSeconds 0 = 0 := by
    simp only [msOfSeconds]; norm_num
  have m1 : msOfSeconds (0 + 1.5) = 1500 := by
    simp only [msOfSeconds]; norm_num; rfl
  simp only [srtFormat, srtEntry, srtTimestamp, List.enumFrom, List.map,
    m0, m1]
  decide

/-- Witness for `c9_srt_formatter` at concrete inputs. -/
theorem c9_srt_formatter_witness :
    srtFormat [⟨"Hi", 0, 1.5⟩] = srtFormat [⟨"Hi", 0, 1.5⟩] ∧
    srtIndices [⟨"Hi", 0, 1.5⟩, ⟨"there", 1.5, 2⟩] = List.range' 1 2 :=
  ⟨c9_srt_formatter.1 [⟨"Hi", 0, 1.5⟩] [⟨"Hi", 0, 1.5⟩] rfl,
    c9_srt_formatter.2.1 [⟨"Hi", 0, 1.5⟩, ⟨"there", 1.5, 2⟩]⟩

/-- C10: the missing-url check runs before the output-format check — a
request with no `url` is answered with the missing-URL description even
when `output` is also invalid — and a request failing either validation
check never invokes the resolver or the transcript source
(src/app.py lines 52-66). -/
theorem c10_validation_order :
    (∀ (resolve : String → ResolveResult) (fetch : String → FetchResult)
        (o : Option String),
      (get_transcript resolve fetch ⟨none, o⟩).resp
          = .abortResp 400 "Missing YouTube URL" ∧
      (get_transcript resolve fetch ⟨some "", o⟩).resp
          = .abortResp 400 "Missing YouTube URL") ∧
    (∀ (resolve : String → ResolveResult) (fetch : String → FetchResult)
        (args : Args),
      (args.url = none ∨ args.url = some "" ∨
        py_lower (args.output.getD "json") ∉
          (["json", "srt", "text"] : List String)) →
      (get_transcript resolve fetch args).resolverCalled = false ∧
      (get_transcript resolve fetch args).fetchCalled = false) := by
  refine ⟨fun resolve fetch o => ⟨rfl, rfl⟩, fun resolve fetch args h => ?_⟩
  obtain ⟨u, o⟩ := args
  rcases h with h | h | h
  · simp only at h; subst h; exact ⟨rfl, rfl⟩
  · simp only at h; subst h; exact ⟨rfl, rfl⟩
  · simp only at h
    rcases u with _ | v
    · exact ⟨rfl, rfl⟩
    · by_cases hv : v = "" <;> simp [get_transcript, hv, h]

/-- Witness for `c10_validation_order` at concrete inputs. -/
theorem c10_validation_order_witness :
    (get_transcript stubResolve stubFetch
        ⟨some stubUrl, some "xml"⟩).resolverCalled = false ∧
    (get_transcript stubResolve stubFetch
        ⟨some stubUrl, some "xml"⟩).fetchCalled = false :=
  c10_validation_order.2 stubResolve stubFetch ⟨some stubUrl, some "xml"⟩
    (Or.inr (Or.inr (by decide)))

/-- C2, counterexample to the claim as stated: with the limiter wired as
in src/app.py — `default_limits=["10 per minute"]` on line 41 and no
exemption on any route — the eleventh request to /api/hello, and likewise
to /privacy-policy, from one client inside one minute window is rejected
with 429. -/
theorem c2_counterexample :
    ((appRun stubResolve stubFetch LimiterState.init
        (List.replicate 11 helloReq)).map Response.status).getLast?
      = some 429 ∧
    ((appRun stubResolve stubFetch LimiterState.init
        (List.replicate 11 privacyReq)).map Response.status).getLast?
      = some 429 := by
  constructor <;> decide

/-- C2 (amended): /api/hello and /privacy-policy are governed by the
app-wide default limit of 10 requests per minute per client: a request
from a client already seen ten or more times on that route in the current
window is rejected with the uniform 429 body, while a request under the
limit is served with status 200. -/
theorem c2_default_limit (resolve : String → ResolveResult)
    (fetch : String → FetchResult) (st : LimiterState) (c : String)
    (w : Nat) (e : Endpoint) (a : Args) (he : e = .hello ∨ e = .privacy) :
    routeLimitPerMinute e = defaultLimitPerMinute ∧
    (defaultLimitPerMinute ≤ st c e w →
      (appStep resolve fetch st ⟨c, w, e, a⟩).resp
        = .rateLimited "Rate limit exceeded" "10 per minute") ∧
    (st c e w < defaultLimitPerMinute →
      (appStep resolve fetch st ⟨c, w, e, a⟩).resp.status = 200) := by
  have h10 : defaultLimitPerMinute = 10 := rfl
  rcases he with he | he <;> subst he <;>
    refine ⟨rfl, fun h => ?_, fun h => ?_⟩ <;>
    simp only [appStep]
  · rw [if_pos (show st c .hello w + 1 > routeLimitPerMinute .hello by
      have : routeLimitPerMinute .hello = 10 := rfl; omega)]
  · rw [if_neg (show ¬ st c .hello w + 1 > routeLimitPerMinute .hello by
      have : routeLimitPerMinute .hello = 10 := rfl; omega)]
    rfl
  · rw [if_pos (show st c .privacy w + 1 > routeLimitPerMinute .privacy by
      have : routeLimitPerMinute .privacy = 10 := rfl; omega)]
  · rw [if_neg (show ¬ st c .privacy w + 1 > routeLimitPerMinute .privacy by
      have : routeLimitPerMinute .privacy = 10 := rfl; omega)]
    rfl

/-- Witness for `c2_default_limit` at concrete inputs. -/
theorem c2_default_limit_witness :
    (appStep stubResolve stubFetch exhaustedState
        ⟨"203.0.113.7", 0, .hello, ⟨none, none⟩⟩).resp
      = .rateLimited "Rate limit exceeded" "10 per minute" ∧
    (appStep stubResolve stubFetch LimiterState.init
        ⟨"203.0.113.7", 0, .privacy, ⟨none, none⟩⟩).resp.status = 200 :=
  ⟨(c2_default_limit stubResolve stubFetch exhaustedState "203.0.113.7" 0
      .hello ⟨none, none⟩ (Or.inl rfl)).2.1 (by decide),
    (c2_default_limit stubResolve stubFetch LimiterState.init "203.0.113.7"
      0 .privacy ⟨none, none⟩ (Or.inr rfl)).2.2 (by decide)⟩

/-- C3: a transcript request from a client who has exhausted the
configured quota in the current window is answered with 429 and the JSON
body `{error: "Rate limit exceeded", description: ...}`, and neither the
resolver nor the transcript source is invoked — the gate fires before the
view function runs (src/app.py lines 49-51 and 178-180). -/
theorem c3_rate_limit_gate (resolve : String → ResolveResult)
    (fetch : String → FetchResult) (st : LimiterState) (c : String)
    (w : Nat) (a : Args)
    (h : transcriptLimitPerMinute ≤ st c .transcript w) :
    (appStep resolve fetch st ⟨c, w, .transcript, a⟩).resp
        = .rateLimited "Rate limit exceeded" "10 per minute" ∧
    (appStep resolve fetch st ⟨c, w, .transcript, a⟩).resp.status = 429 ∧
    (appStep resolve fetch st ⟨c, w, .transcript, a⟩).resolverCalled
        = false ∧
    (appStep resolve fetch st ⟨c, w, .transcript, a⟩).fetchCalled
        = false := by
  have hc : st c .transcript w + 1 > routeLimitPerMinute .transcript := by
    have h1 : routeLimitPerMinute .transcript = transcriptLimitPerMinute :=
      rfl
    have h2 : transcriptLimitPerMinute = 10 := rfl
    omega
  simp only [appStep]
  rw [if_pos hc]
  exact ⟨rfl, rfl, rfl, rfl⟩

/-- Witness for `c3_rate_limit_gate` at concrete inputs. -/
theorem c3_rate_limit_gate_witness :
    (appStep stubResolve stubFetch exhaustedState
        ⟨"203.0.113.7", 0, .transcript, ⟨some stubUrl, none⟩⟩).resp
      = .rateLimited "Rate limit exceeded" "10 per minute" ∧
    (appStep stubResolve stubFetch exhaustedState
        ⟨"203.0.113.7", 0, .transcript, ⟨some stubUrl, none⟩⟩).resp.status
      = 429 ∧
    (appStep stubResolve stubFetch exhaustedState
        ⟨"203.0.113.7", 0, .transcript,
          ⟨some stubUrl, none⟩⟩).resolverCalled = false ∧
    (appStep stubResolve stubFetch exhaustedState
        ⟨"203.0.113.7", 0, .transcript, ⟨some stubUrl, none⟩⟩).fetchCalled
      = false :=
  c3_rate_limit_gate stubResolve stubFetch exhaustedState "203.0.113.7" 0
    ⟨some stubUrl, none⟩ (by decide)

end YTGateway
